import Mathlib

/-!
Verification of the RAG conversation session implemented in `app.py`.

The program is a single-file Streamlit application.  Its session state
(`st.session_state`) holds four fields: `messages` (the transcript),
`assistant` (the configured assistant, `None` until a knowledge base is
loaded), `knowledge_base_loaded` (the ready flag) and `collection_name`
(a per-session collection id generated once at session start).

The external collaborators (PDF reader, embedder, vector store, LLM) are
reached only through library calls inside `try`/`except` blocks; we model
each such block's fallible portion as an `Except` value supplied to the
step function, and the vector store's collection contents as an explicit
list of documents threaded alongside the session state.
-/

namespace PDFAssistant

/-- A transcript entry, mirroring the Python dict `{"role": ..., "content": ...}`. -/
structure Message where
  role : String
  content : String
  deriving DecidableEq, Repr

/-- A document chunk as returned by `kb.search` (only its `content` field is
used by the program, at line 217). -/
structure Doc where
  content : String
  deriving DecidableEq, Repr

/-- The assistant object built at lines 96-103 / 163-170.  Of its
configuration the session-level claims only depend on which collection its
knowledge base points at, so we retain exactly that. -/
structure Assistant where
  kbCollection : String
  deriving DecidableEq, Repr

/-- The four `st.session_state` fields initialised at lines 36-44. -/
structure AppState where
  messages : List Message
  assistant : Option Assistant
  knowledge_base_loaded : Bool
  collection_name : String
  deriving DecidableEq, Repr

/-- Initial session state (lines 36-44): empty transcript, no assistant, flag
false, and a freshly generated collection name (the uuid generation is
external, so the name is a parameter). -/
def initState (collectionName : String) : AppState :=
  { messages := [], assistant := none, knowledge_base_loaded := false,
    collection_name := collectionName }

/-- A concrete Ready session (as left by a successful load), used to
instantiate the theorems at explicit inputs. -/
def readyFixture : AppState :=
  { messages := [], assistant := some { kbCollection := "docs_1" },
    knowledge_base_loaded := true, collection_name := "docs_1" }

/-- Result of running one load handler: the session state afterwards, the
rows of the session's collection in the vector store afterwards, and the
error strings displayed via `st.error` (empty on success). -/
structure LoadResult where
  state : AppState
  store : List Doc
  errorsShown : List String
  deriving DecidableEq, Repr

/-- The "Load PDFs" handler, lines 59-119.  The whole body sits in one
`try`/`except`: saving the uploads, building the knowledge base, running
`knowledge_base.load()` (which, per the Vector Store contract of the spec
(§4.3), upserts the produced chunks into the collection named
`collection_name` without clearing it — the code passes no recreate flag),
and constructing storage and assistant.  We model the fallible portion as
one `Except String (List Doc)` carrying the chunks ingested on success.
On success the handler sets `assistant`, sets the ready flag (line 105) and
clears the transcript (line 106); on any exception it displays two error
strings (lines 117-119, the traceback abstracted as the exception text) and
touches no session state. -/
def loadPDFsStep (s : AppState) (store : List Doc)
    (r : Except String (List Doc)) : LoadResult :=
  match r with
  | Except.ok docs =>
      { state := { s with
          assistant := some { kbCollection := s.collection_name },
          knowledge_base_loaded := true,
          messages := [] },
        store := store ++ docs,
        errorsShown := [] }
  | Except.error e =>
      { state := s, store := store,
        errorsShown := ["❌ Error loading PDFs: " ++ e, "Details: " ++ e] }

/-- Python's `str.strip()` (no argument): the string with leading and
trailing whitespace removed, written over the character list so that it is
kernel-executable. -/
def strip (s : String) : String :=
  String.mk (((s.data.dropWhile Char.isWhitespace).reverse.dropWhile Char.isWhitespace).reverse)

/-- The "Load URLs" handler, lines 129-179.  Identical shape to the PDF
handler, guarded by `if url_input.strip():` (line 130) — a blank input only
shows a warning and does nothing. -/
def loadURLsStep (s : AppState) (store : List Doc) (urlInput : String)
    (r : Except String (List Doc)) : LoadResult :=
  if strip urlInput = "" then
    { state := s, store := store, errorsShown := [] }
  else
    match r with
    | Except.ok docs =>
        { state := { s with
            assistant := some { kbCollection := s.collection_name },
            knowledge_base_loaded := true,
            messages := [] },
          store := store ++ docs,
          errorsShown := [] }
    | Except.error e =>
        { state := s, store := store,
          errorsShown := ["❌ Error loading URLs: " ++ e, "Details: " ++ e] }

/-- The "Clear Conversation" button handler, lines 185-187. -/
def clearConversationStep (s : AppState) : AppState :=
  { s with messages := [] }

/-- Modelled from the spec: the external Vector Store's `search` (§4.3, §6),
called by the program as `kb.search(query=prompt, num_documents=5)`.  It
returns the entries of the requested collection ranked by descending
similarity, at most `k` of them.  The provider-specific ranking is a
parameter `rank` that reorders the collection's rows. -/
def search (rank : String → List Doc → List Doc) (coll : List Doc)
    (query : String) (k : Nat) : List Doc :=
  (rank query coll).take k

/-- The retrieval call of one chat turn, line 214:
`relevant_docs = kb.search(query=prompt, num_documents=5)`. -/
def retrieveForTurn (rank : String → List Doc → List Doc) (coll : List Doc)
    (query : String) : List Doc :=
  search rank coll query 5

/-- One labelled context block, line 217:
`f"Document {i+1}:\n{doc.content}"` applied to an enumerated document. -/
def docLabel (p : Nat × Doc) : String :=
  "Document " ++ toString (p.1 + 1) ++ ":\n" ++ p.2.content

/-- The context string, line 217:
`"\n\n".join([f"Document {i+1}:\n{doc.content}" for i, doc in enumerate(relevant_docs)])`. -/
def contextOf (docs : List Doc) : String :=
  String.intercalate "\n\n" (docs.enum.map docLabel)

/-- The composed prompt, lines 220-227 (the f-string template with the
context and the raw question interpolated). -/
def enhancedPrompt (question : String) (docs : List Doc) : String :=
  "Based on the following context from the documents, please answer the question.\n\nContext:\n"
    ++ contextOf docs
    ++ "\n\nQuestion: " ++ question ++ "\n\nAnswer:"

/-- An element of `response.messages` as inspected at lines 237-241: it
either exposes a `content` attribute or is rendered with `str(...)`. -/
inductive RespMessage where
  | withContent (content : String)
  | withoutContent (repr : String)
  deriving DecidableEq, Repr

/-- The shape of the value returned by `assistant.run`, as discriminated at
lines 233-243: it has a `content` attribute, or (otherwise) a `messages`
attribute, or neither — in the last case it is rendered with
`str(response)`. -/
inductive Response where
  | withContent (content : String)
  | withMessages (messages : List RespMessage) (repr : String)
  | other (repr : String)
  deriving DecidableEq, Repr

/-- The response-extraction logic, lines 232-243, translated branch by
branch (`messages[-1]` is the last element, guarded by `len(...) > 0`). -/
def extractText : Response → String
  | Response.withContent c => c
  | Response.withMessages msgs rep =>
      match msgs.getLast? with
      | some (RespMessage.withContent c) => c
      | some (RespMessage.withoutContent t) => t
      | none => rep
  | Response.other rep => rep

/-- Outcome of the fallible portion of one chat turn (the `try` block at
lines 211-252: retrieval, prompt construction, `assistant.run` and
extraction): either the response object, or the exception raised. -/
inductive TurnResult where
  | ok (resp : Response)
  | exn (e : String)
  deriving DecidableEq, Repr

/-- What the turn displayed for the assistant side: the answer (line 245),
the error message via `st.error` (line 255), or — when the flag is false —
nothing, because the chat input is not rendered at all and the page shows
the "please load documents" notice instead (lines 260-261). -/
inductive AskOutcome where
  | answered (text : String)
  | errorShown (text : String)
  | notLoaded
  deriving DecidableEq, Repr

/-- One chat turn, lines 195-261.  The whole chat interface lives under
`if st.session_state.knowledge_base_loaded:` (line 195), so with the flag
false an ask attempt reaches no handler and changes nothing.  With the flag
true, the user message is appended first (line 204); then the `try` block
runs and, on success, the extracted answer is appended as the assistant
message (lines 248-251), while on any exception the string
`f"Error: {str(e)}"` is displayed and appended instead (lines 253-259). -/
def askStep (s : AppState) (question : String) (tr : TurnResult) :
    AppState × AskOutcome :=
  if s.knowledge_base_loaded then
    let s1 : AppState :=
      { s with messages := s.messages ++ [{ role := "user", content := question }] }
    match tr with
    | TurnResult.ok resp =>
        ({ s1 with messages :=
            s1.messages ++ [{ role := "assistant", content := extractText resp }] },
         AskOutcome.answered (extractText resp))
    | TurnResult.exn e =>
        ({ s1 with messages :=
            s1.messages ++ [{ role := "assistant", content := "Error: " ++ e }] },
         AskOutcome.errorShown ("Error: " ++ e))
  else (s, AskOutcome.notLoaded)

/-- The text the turn records on the assistant side. -/
def turnText : TurnResult → String
  | TurnResult.ok resp => extractText resp
  | TurnResult.exn e => "Error: " ++ e

/-- The two messages one ask turn appends. -/
def turnMessages (t : String × TurnResult) : List Message :=
  [{ role := "user", content := t.1 },
   { role := "assistant", content := turnText t.2 }]

/-- A sequence of ask turns, each given by the raw question and the outcome
of its fallible retrieval/LLM portion. -/
def runAsks (s : AppState) (turns : List (String × TurnResult)) : AppState :=
  turns.foldl (fun st t => (askStep st t.1 t.2).1) s

/-- Transcript shape check: even length, alternating user/assistant
starting with user. -/
def alternatesUA : List Message → Bool
  | [] => true
  | [_] => false
  | u :: a :: rest => (u.role == "user") && (a.role == "assistant") && alternatesUA rest

/-- The character sequence `needle` occurs contiguously inside `hay`. -/
def hasSub (needle : List Char) : List Char → Bool
  | [] => needle.isEmpty
  | c :: t => needle.isPrefixOf (c :: t) || hasSub needle t

/-- Modelled from the spec: a necessary condition for a prompt that
"explicitly tells the model that no supporting context was found" — any
such wording contains a negation or absence word, so the prompt's text must
contain one of these character runs. -/
def mentionsNoContext (p : String) : Bool :=
  hasSub "no".data p.data || hasSub "No".data p.data || hasSub "NO".data p.data
    || hasSub "empty".data p.data || hasSub "Empty".data p.data
    || hasSub "missing".data p.data || hasSub "Missing".data p.data
    || hasSub "absen".data p.data || hasSub "Absen".data p.data
    || hasSub "without".data p.data || hasSub "Without".data p.data
    || hasSub "lack".data p.data || hasSub "Lack".data p.data

/-- The strings `parts` occur inside `s` in the given order, on disjoint
segments from left to right. -/
def InOrderParts : List String → String → Prop
  | [], _ => True
  | x :: xs, s => ∃ a b, s = a ++ x ++ b ∧ InOrderParts xs b

lemma inOrderParts_prepend (xs : List String) (p t : String)
    (h : InOrderParts xs t) : InOrderParts xs (p ++ t) := by
  cases xs with
  | nil => trivial
  | cons x xs =>
      obtain ⟨a, b, hab, hrest⟩ := h
      refine ⟨p ++ a, b, ?_, hrest⟩
      rw [hab]
      simp [String.append_assoc]

lemma intercalate_go_nil (acc s : String) :
    String.intercalate.go acc s [] = acc := rfl

lemma intercalate_go_cons (acc s a : String) (as : List String) :
    String.intercalate.go acc s (a :: as)
      = String.intercalate.go (acc ++ s ++ a) s as := rfl

lemma intercalate_go_pull (s : String) : ∀ (as : List String) (acc₁ acc₂ : String),
    String.intercalate.go (acc₁ ++ acc₂) s as
      = acc₁ ++ String.intercalate.go acc₂ s as := by
  intro as
  induction as with
  | nil => intro acc₁ acc₂; rw [intercalate_go_nil, intercalate_go_nil]
  | cons a as ih =>
      intro acc₁ acc₂
      rw [intercalate_go_cons, intercalate_go_cons]
      have h : acc₁ ++ acc₂ ++ s ++ a = acc₁ ++ (acc₂ ++ s ++ a) := by
        simp [String.append_assoc]
      rw [h]
      exact ih acc₁ (acc₂ ++ s ++ a)

lemma intercalate_cons_cons (s a b : String) (l : List String) :
    String.intercalate s (a :: b :: l) = a ++ s ++ String.intercalate s (b :: l) := by
  have h1 : String.intercalate s (a :: b :: l) = String.intercalate.go a s (b :: l) := rfl
  have h2 : String.intercalate s (b :: l) = String.intercalate.go b s l := rfl
  rw [h1, h2, intercalate_go_cons]
  exact intercalate_go_pull s l (a ++ s) b

lemma inOrderParts_intercalate (sep : String) :
    ∀ (xs ys : List String) (suffix : String), InOrderParts ys suffix →
      InOrderParts (xs ++ ys) (String.intercalate sep xs ++ suffix) := by
  intro xs
  induction xs with
  | nil =>
      intro ys suffix h
      rw [show String.intercalate sep [] = "" from rfl, String.empty_append]
      exact h
  | cons x xs ih =>
      intro ys suffix h
      cases xs with
      | nil =>
          refine ⟨"", suffix, ?_, h⟩
          rw [String.empty_append]
          rfl
      | cons y ys' =>
          rw [intercalate_cons_cons]
          refine ⟨"", sep ++ (String.intercalate sep (y :: ys') ++ suffix), ?_, ?_⟩
          · simp [String.append_assoc, String.empty_append]
          · exact inOrderParts_prepend _ sep _ (ih ys suffix h)

lemma askStep_ready (s : AppState) (t : String × TurnResult)
    (h : s.knowledge_base_loaded = true) :
    (askStep s t.1 t.2).1.messages = s.messages ++ turnMessages t
    ∧ (askStep s t.1 t.2).1.knowledge_base_loaded = true := by
  cases t with
  | mk q tr =>
      cases tr with
      | ok resp => constructor <;> simp [askStep, h, turnMessages, turnText, List.append_assoc]
      | exn e => constructor <;> simp [askStep, h, turnMessages, turnText, List.append_assoc]

lemma runAsks_ready (turns : List (String × TurnResult)) : ∀ (s : AppState),
    s.knowledge_base_loaded = true →
    (runAsks s turns).messages = s.messages ++ (turns.map turnMessages).flatten
    ∧ (runAsks s turns).knowledge_base_loaded = true := by
  induction turns with
  | nil =>
      intro s h
      exact ⟨by simp [runAsks], by simpa [runAsks] using h⟩
  | cons t ts ih =>
      intro s h
      have h1 := askStep_ready s t h
      have h2 := ih (askStep s t.1 t.2).1 h1.2
      constructor
      · have hr : runAsks s (t :: ts) = runAsks (askStep s t.1 t.2).1 ts := rfl
        rw [hr, h2.1, h1.1]
        simp [List.append_assoc]
      · have hr : runAsks s (t :: ts) = runAsks (askStep s t.1 t.2).1 ts := rfl
        rw [hr]
        exact h2.2

lemma alternatesUA_flatten (turns : List (String × TurnResult)) :
    alternatesUA ((turns.map turnMessages).flatten) = true := by
  induction turns with
  | nil => rfl
  | cons t ts ih => simpa [turnMessages, alternatesUA] using ih

lemma flatten_turnMessages_length (turns : List (String × TurnResult)) :
    ((turns.map turnMessages).flatten).length = 2 * turns.length := by
  induction turns with
  | nil => rfl
  | cons t ts ih =>
      simp [turnMessages, ih]
      omega

/-- C2: the ready flag `knowledge_base_loaded` becomes true only through a
load-handler run whose ingestion completed without raising; on every path
where ingestion raises, the run leaves the session state (the flag
included) untouched, for both the upload handler and the URL handler. -/
theorem ready_only_after_successful_ingestion (s : AppState) (store : List Doc)
    (urlInput : String) (e : String) (docs : List Doc)
    (hu : strip urlInput ≠ "") :
    (loadPDFsStep s store (Except.error e)).state = s
    ∧ (loadPDFsStep s store (Except.ok docs)).state.knowledge_base_loaded = true
    ∧ (loadURLsStep s store urlInput (Except.error e)).state = s
    ∧ (loadURLsStep s store urlInput (Except.ok docs)).state.knowledge_base_loaded = true
    ∧ (∀ r, (loadPDFsStep s store r).state.knowledge_base_loaded = true →
        s.knowledge_base_loaded = true ∨ ∃ ds, r = Except.ok ds)
    ∧ (∀ r, (loadURLsStep s store urlInput r).state.knowledge_base_loaded = true →
        s.knowledge_base_loaded = true ∨ ∃ ds, r = Except.ok ds) := by
  refine ⟨rfl, rfl, ?_, ?_, ?_, ?_⟩
  · simp [loadURLsStep, hu]
  · simp [loadURLsStep, hu]
  · intro r h
    cases r with
    | ok ds => exact Or.inr ⟨ds, rfl⟩
    | error e' => exact Or.inl h
  · intro r h
    cases r with
    | ok ds => exact Or.inr ⟨ds, rfl⟩
    | error e' =>
        refine Or.inl ?_
        simpa [loadURLsStep, hu] using h

/-- Witness for C2 at a concrete session: a failing ingestion leaves the
fresh state untouched and a succeeding one sets the flag. -/
theorem ready_only_after_successful_ingestion_witness :
    (loadPDFsStep (initState "docs_1") [] (Except.error "boom")).state = initState "docs_1"
    ∧ (loadPDFsStep (initState "docs_1") [] (Except.ok [Doc.mk "alpha"])).state.knowledge_base_loaded = true := by
  have h := ready_only_after_successful_ingestion (initState "docs_1") []
      "https://example.com/a.pdf" "boom" [Doc.mk "alpha"] (by decide)
  exact ⟨h.1, h.2.1⟩

/-- C7: while `knowledge_base_loaded` is false the chat interface is not
rendered, so an ask attempt reaches no handler: the session state (the
transcript included) is unchanged and the outcome is the not-loaded notice
— the code's realisation of the spec's `InvalidState` rejection. -/
theorem ask_rejected_when_not_loaded (s : AppState) (question : String)
    (tr : TurnResult) (h : s.knowledge_base_loaded = false) :
    askStep s question tr = (s, AskOutcome.notLoaded) := by
  simp [askStep, h]

/-- Witness for C7: asking on a fresh (Empty) session changes nothing. -/
theorem ask_rejected_when_not_loaded_witness :
    askStep (initState "docs_1") "What is X?" (TurnResult.ok (Response.other "r"))
      = (initState "docs_1", AskOutcome.notLoaded) :=
  ask_rejected_when_not_loaded (initState "docs_1") "What is X?"
    (TurnResult.ok (Response.other "r")) rfl

/-- C8: when the retrieval/LLM portion of an ask turn raises, the exception
is caught at the turn boundary: the transcript gains the user message and a
visible assistant error message, while the ready flag, the assistant and
the collection id are unchanged, so the session stays Ready. -/
theorem ask_failure_caught_and_state_preserved (s : AppState) (question e : String)
    (h : s.knowledge_base_loaded = true) :
    (askStep s question (TurnResult.exn e)).1.messages
        = s.messages ++ [{ role := "user", content := question },
                         { role := "assistant", content := "Error: " ++ e }]
    ∧ (askStep s question (TurnResult.exn e)).1.knowledge_base_loaded = true
    ∧ (askStep s question (TurnResult.exn e)).1.assistant = s.assistant
    ∧ (askStep s question (TurnResult.exn e)).1.collection_name = s.collection_name
    ∧ (askStep s question (TurnResult.exn e)).2 = AskOutcome.errorShown ("Error: " ++ e) := by
  simp [askStep, h]

/-- Witness for C8 at a concrete Ready session with a raising turn. -/
theorem ask_failure_caught_and_state_preserved_witness :
    (askStep readyFixture "q" (TurnResult.exn "boom")).1.messages
      = [{ role := "user", content := "q" },
         { role := "assistant", content := "Error: " ++ "boom" }] := by
  have h := ask_failure_caught_and_state_preserved readyFixture "q" "boom" rfl
  simpa [readyFixture] using h.1

/-- C9: every successful ingestion — upload path or URL path — sets the
ready flag and resets the transcript to the empty list. -/
theorem successful_load_resets_transcript (s : AppState) (store docs : List Doc)
    (urlInput : String) (hu : strip urlInput ≠ "") :
    (loadPDFsStep s store (Except.ok docs)).state.messages = []
    ∧ (loadPDFsStep s store (Except.ok docs)).state.knowledge_base_loaded = true
    ∧ (loadURLsStep s store urlInput (Except.ok docs)).state.messages = []
    ∧ (loadURLsStep s store urlInput (Except.ok docs)).state.knowledge_base_loaded = true := by
  refine ⟨rfl, rfl, ?_, ?_⟩ <;> simp [loadURLsStep, hu]

/-- Witness for C9 at a concrete session with a nonblank URL input. -/
theorem successful_load_resets_transcript_witness :
    (loadPDFsStep (initState "docs_1") [] (Except.ok [Doc.mk "alpha"])).state.messages = []
    ∧ (loadURLsStep (initState "docs_1") [] "https://example.com/a.pdf"
        (Except.ok [Doc.mk "alpha"])).state.messages = [] := by
  have h := successful_load_resets_transcript (initState "docs_1") [] [Doc.mk "alpha"]
      "https://example.com/a.pdf" (by decide)
  exact ⟨h.1, h.2.2.1⟩

/-- C10: the response extraction of lines 232-243 is a total function into
strings; on each of the shapes `assistant.run` may return — a `content`
attribute, a nonempty `messages` list whose last element has or lacks
`content`, an empty `messages` list, or neither attribute — it yields the
documented string (falling back to `str` of the value) and never fails. -/
theorem extractText_total (c t rep : String) (pre : List RespMessage) :
    extractText (Response.withContent c) = c
    ∧ extractText (Response.withMessages (pre ++ [RespMessage.withContent c]) rep) = c
    ∧ extractText (Response.withMessages (pre ++ [RespMessage.withoutContent t]) rep) = t
    ∧ extractText (Response.withMessages [] rep) = rep
    ∧ extractText (Response.other rep) = rep := by
  refine ⟨rfl, ?_, ?_, rfl, rfl⟩ <;> simp [extractText, List.getLast?_concat]

/-- C5 counterexample: ingesting sources of which one is corrupt makes
`knowledge_base.load()` raise, so the handler reports a single aggregated
error and the ready flag stays false — contradicting the claim that the
good source's chunks are still upserted and `ready` becomes true. -/
theorem partial_ingestion_counterexample :
    (loadPDFsStep (initState "docs_1") [] (Except.error "EOF marker not found")).state.knowledge_base_loaded = false
    ∧ (loadPDFsStep (initState "docs_1") [] (Except.error "EOF marker not found")).errorsShown ≠ []
    ∧ (loadPDFsStep (initState "docs_1") [] (Except.error "EOF marker not found")).store = [] := by
  refine ⟨rfl, ?_, rfl⟩
  decide

/-- C5 amended: ingestion is all-or-nothing at the session boundary — a run
that reports errors leaves the session state untouched (the flag stays as
it was), and a successful run reports no per-source errors at all; there is
no path on which an error entry is reported while the run sets the flag. -/
theorem ingestion_error_reporting_all_or_nothing (s : AppState) (store : List Doc)
    (urlInput : String) (r : Except String (List Doc)) :
    ((loadPDFsStep s store r).errorsShown ≠ [] → (loadPDFsStep s store r).state = s)
    ∧ ((loadURLsStep s store urlInput r).errorsShown ≠ [] →
        (loadURLsStep s store urlInput r).state = s)
    ∧ (∀ ds, r = Except.ok ds → (loadPDFsStep s store r).errorsShown = []) := by
  refine ⟨?_, ?_, ?_⟩
  · intro h
    cases r with
    | ok ds => exact absurd rfl h
    | error e => rfl
  · intro h
    by_cases hb : strip urlInput = ""
    · simp [loadURLsStep, hb]
    · cases r with
      | ok ds => exact absurd (by simp [loadURLsStep, hb]) h
      | error e => simp [loadURLsStep, hb]
  · intro ds hds
    subst hds
    rfl

/-- Witness for the amended C5: a concrete failing run reports errors and
leaves the fresh session unchanged. -/
theorem ingestion_error_reporting_all_or_nothing_witness :
    (loadPDFsStep (initState "docs_1") [] (Except.error "bad pdf")).state = initState "docs_1" :=
  (ingestion_error_reporting_all_or_nothing (initState "docs_1") [] "u"
    (Except.error "bad pdf")).1 (by decide)

/-- C4 counterexample: the session keeps one fixed `collection_name`, and a
second load while Ready upserts into that same collection without clearing
it, so a chunk from the first load (`alpha`) is still retrieved alongside
the new chunk (`beta`) by the default `num_documents=5` search. -/
theorem reload_merges_counterexample :
    (loadPDFsStep (initState "docs_ab12") [] (Except.ok [Doc.mk "alpha"])).state.knowledge_base_loaded = true
    ∧ (loadPDFsStep
        (loadPDFsStep (initState "docs_ab12") [] (Except.ok [Doc.mk "alpha"])).state
        (loadPDFsStep (initState "docs_ab12") [] (Except.ok [Doc.mk "alpha"])).store
        (Except.ok [Doc.mk "beta"])).state.collection_name = "docs_ab12"
    ∧ (loadPDFsStep
        (loadPDFsStep (initState "docs_ab12") [] (Except.ok [Doc.mk "alpha"])).state
        (loadPDFsStep (initState "docs_ab12") [] (Except.ok [Doc.mk "alpha"])).store
        (Except.ok [Doc.mk "beta"])).store = [Doc.mk "alpha", Doc.mk "beta"]
    ∧ retrieveForTurn (fun _ c => c) [Doc.mk "alpha", Doc.mk "beta"] "What is X?"
        = [Doc.mk "alpha", Doc.mk "beta"]
    ∧ Doc.mk "alpha" ∈ retrieveForTurn (fun _ c => c) [Doc.mk "alpha", Doc.mk "beta"] "What is X?" := by
  refine ⟨rfl, rfl, rfl, rfl, ?_⟩
  simp [retrieveForTurn, search]

/-- C4 amended: a fresh load keeps the session's fixed collection id and
appends the new documents' chunks to the existing collection (upsert
without clearing), so earlier chunks remain in the searched collection —
merge semantics, not replacement. -/
theorem reload_appends_same_collection (s : AppState) (store docs : List Doc)
    (urlInput : String) (r : Except String (List Doc)) (hu : strip urlInput ≠ "") :
    (loadPDFsStep s store (Except.ok docs)).store = store ++ docs
    ∧ (loadPDFsStep s store r).state.collection_name = s.collection_name
    ∧ (loadURLsStep s store urlInput (Except.ok docs)).store = store ++ docs
    ∧ (loadURLsStep s store urlInput r).state.collection_name = s.collection_name := by
  refine ⟨rfl, ?_, ?_, ?_⟩
  · cases r with
    | ok ds => rfl
    | error e => rfl
  · simp [loadURLsStep, hu]
  · by_cases hb : strip urlInput = ""
    · simp [loadURLsStep, hb]
    · cases r with
      | ok ds => simp [loadURLsStep, hb]
      | error e => simp [loadURLsStep, hb]

/-- Witness for the amended C4: a concrete second load appends to the
first load's rows and keeps the collection id. -/
theorem reload_appends_same_collection_witness :
    (loadPDFsStep (initState "docs_ab12") [Doc.mk "alpha"] (Except.ok [Doc.mk "beta"])).store
      = [Doc.mk "alpha"] ++ [Doc.mk "beta"] :=
  (reload_appends_same_collection (initState "docs_ab12") [Doc.mk "alpha"] [Doc.mk "beta"]
    "https://example.com/a.pdf" (Except.ok [Doc.mk "beta"]) (by decide)).1

/-- C1: starting from a Ready session with a fresh transcript, any sequence
of `n` ask turns — each succeeding or raising — yields a transcript that is
exactly the concatenation of one user message carrying the raw question and
one assistant message carrying the answer or the visible error string, per
turn and in that order; hence exactly `2n` messages alternating
user/assistant starting with user. -/
theorem transcript_invariant (s : AppState) (turns : List (String × TurnResult))
    (hl : s.knowledge_base_loaded = true) (hm : s.messages = []) :
    (runAsks s turns).messages = (turns.map turnMessages).flatten
    ∧ (runAsks s turns).messages.length = 2 * turns.length
    ∧ alternatesUA (runAsks s turns).messages = true := by
  have h := runAsks_ready turns s hl
  have hmsg : (runAsks s turns).messages = (turns.map turnMessages).flatten := by
    rw [h.1, hm, List.nil_append]
  refine ⟨hmsg, ?_, ?_⟩
  · rw [hmsg]
    exact flatten_turnMessages_length turns
  · rw [hmsg]
    exact alternatesUA_flatten turns

/-- Witness for C1: two turns (one success, one raising) on a concrete
Ready session produce the four expected messages in order. -/
theorem transcript_invariant_witness :
    (runAsks readyFixture
        [("q1", TurnResult.ok (Response.withContent "a1")),
         ("q2", TurnResult.exn "boom")]).messages.length = 2 * 2
    ∧ alternatesUA (runAsks readyFixture
        [("q1", TurnResult.ok (Response.withContent "a1")),
         ("q2", TurnResult.exn "boom")]).messages = true := by
  have h := transcript_invariant readyFixture
      [("q1", TurnResult.ok (Response.withContent "a1")),
       ("q2", TurnResult.exn "boom")] rfl rfl
  exact ⟨h.2.1, h.2.2⟩

/-- C3: each ask turn requests `num_documents = 5` from the knowledge-base
search, so at most 5 chunks are retrieved, and the composed prompt contains
every retrieved chunk's labelled block ("Document i" followed by the chunk
text) in retrieval-rank order, followed by the literal question text. -/
theorem turn_retrieval_and_prompt (rank : String → List Doc → List Doc)
    (coll : List Doc) (question : String) :
    retrieveForTurn rank coll question = search rank coll question 5
    ∧ (retrieveForTurn rank coll question).length ≤ 5
    ∧ InOrderParts
        (((retrieveForTurn rank coll question).enum.map docLabel) ++ [question])
        (enhancedPrompt question (retrieveForTurn rank coll question)) := by
  refine ⟨rfl, ?_, ?_⟩
  · have h : (List.take 5 (rank question coll)).length ≤ 5 := by
      rw [List.length_take]
      exact min_le_left _ _
    exact h
  · have hq : InOrderParts [question] ("\n\nQuestion: " ++ question ++ "\n\nAnswer:") :=
      ⟨"\n\nQuestion: ", "\n\nAnswer:", rfl, trivial⟩
    have h := inOrderParts_intercalate "\n\n"
        ((retrieveForTurn rank coll question).enum.map docLabel) [question]
        ("\n\nQuestion: " ++ question ++ "\n\nAnswer:") hq
    have h2 := inOrderParts_prepend _
        "Based on the following context from the documents, please answer the question.\n\nContext:\n" _ h
    have he : enhancedPrompt question (retrieveForTurn rank coll question)
        = "Based on the following context from the documents, please answer the question.\n\nContext:\n"
          ++ (String.intercalate "\n\n" ((retrieveForTurn rank coll question).enum.map docLabel)
              ++ ("\n\nQuestion: " ++ question ++ "\n\nAnswer:")) := by
      simp [enhancedPrompt, contextOf, String.append_assoc]
    rw [he]
    exact h2

/-- C6 counterexample: with an empty retrieved-chunk sequence the composed
prompt is the bare template around an empty Context section; it is
non-empty but contains no wording telling the model that no supporting
context was found. -/
theorem empty_context_no_notice_counterexample :
    enhancedPrompt "What is X?" [] ≠ ""
    ∧ mentionsNoContext (enhancedPrompt "What is X?" []) = false := by
  constructor
  · decide
  · decide

/-- C6 amended: when the retrieved chunk sequence is empty the composed
prompt is still the well-formed, non-empty fixed template with the literal
question, but its Context section is simply empty — the prompt does not
state that no supporting context was found. -/
theorem empty_context_prompt_shape (question : String) :
    enhancedPrompt question []
      = "Based on the following context from the documents, please answer the question.\n\nContext:\n"
        ++ "\n\nQuestion: " ++ question ++ "\n\nAnswer:"
    ∧ enhancedPrompt question [] ≠ "" := by
  have h1 : enhancedPrompt question []
      = "Based on the following context from the documents, please answer the question.\n\nContext:\n"
        ++ "\n\nQuestion: " ++ question ++ "\n\nAnswer:" := by
    have hc : contextOf [] = "" := rfl
    simp [enhancedPrompt, hc]
  refine ⟨h1, ?_⟩
  rw [h1]
  intro h
  have hd := congrArg String.data h
  simp only [String.data_append] at hd
  have hnil : ("Based on the following context from the documents, please answer the question.\n\nContext:\n" : String).data = [] := by
    rcases List.append_eq_nil.mp hd with ⟨h3, _⟩
    rcases List.append_eq_nil.mp h3 with ⟨h4, _⟩
    rcases List.append_eq_nil.mp h4 with ⟨h5, _⟩
    exact h5
  exact absurd (String.ext hnil) (by decide)

end PDFAssistant
